import Mathlib

/-!
Verification development for the STP bridge core (src/06/06-stp-new/stp.c)
and the mOSPF router core (src/12/12-mospf/mospf_daemon.c).

The C code is shallowly embedded: machine integers become `Nat` with explicit
wraparound (`% 2^w`) where the C arithmetic wraps, signed `int` results become
`Int` with the implementation-defined u64/u32-to-int truncation written out,
fallible lookups become `Option`, and the in-place mutations of the handlers
become state-passing functions returning the new state together with the list
of packets sent and the timer actions performed.
-/

/-! ## STP data model (stp.h / stp.c) -/

/-- Values of STP_MAX_AGE, STP_HELLO_TIME and STP_FWD_DELAY live in a
companion header that is not under src/; the proofs never depend on them. -/
def STP_MAX_AGE : Nat := 20

def STP_HELLO_TIME : Nat := 2

def STP_FWD_DELAY : Nat := 15

/-- The fields of struct stp_config that the handler reads, already converted
to host order (the handler performs ntohll/ntohl/ntohs before any use). -/
structure StpConfig where
  root_id : Nat
  root_path_cost : Nat
  switch_id : Nat
  port_id : Nat
deriving DecidableEq, Repr

/-- One stp_port_t: port_id/path_cost plus the stored designated quadruple. -/
structure StpPort where
  port_id : Nat
  path_cost : Nat
  designated_root : Nat
  designated_switch : Nat
  designated_port : Nat
  designated_cost : Nat
deriving DecidableEq, Repr

/-- The process-wide stp_t record. `root_port` is the index of the root port
in `ports` (the C code stores a pointer into its own port array).
`rootStatic` models the function-local `static int root = 1` of
stp_handle_config_packet. -/
structure StpState where
  switch_id : Nat
  designated_root : Nat
  root_path_cost : Nat
  root_port : Option Nat
  ports : List StpPort
  rootStatic : Bool
deriving DecidableEq, Repr

def dfltPort : StpPort := ⟨0, 0, 0, 0, 0, 0⟩

/-- A config BPDU as built by stp_port_send_config. -/
structure StpConfigMsg where
  flags : Nat
  root_id : Nat
  root_path_cost : Nat
  switch_id : Nat
  port_id : Nat
  msg_age : Nat
  max_age : Nat
  hello_time : Nat
  fwd_delay : Nat
deriving DecidableEq, Repr

def stp_is_root_switch (s : StpState) : Bool :=
  s.designated_root == s.switch_id

def stp_port_is_designated (s : StpState) (p : StpPort) : Bool :=
  p.designated_switch == s.switch_id && p.designated_port == p.port_id

/-- The config BPDU stp_port_send_config builds for port p. -/
def stp_config_msg (s : StpState) (p : StpPort) : StpConfigMsg :=
  { flags := 0
    root_id := s.designated_root
    root_path_cost := s.root_path_cost
    switch_id := s.switch_id
    port_id := p.port_id
    msg_age := 0
    max_age := STP_MAX_AGE
    hello_time := STP_HELLO_TIME
    fwd_delay := STP_FWD_DELAY }

/-- stp_port_send_config: a non-root bridge with no root port suppresses. -/
def stp_port_send_config (s : StpState) (p : StpPort) : Option StpConfigMsg :=
  if stp_is_root_switch s = false ∧ s.root_port = none then none
  else some (stp_config_msg s p)

/-- stp_send_config: one config BPDU from every currently designated port. -/
def stp_send_config (s : StpState) : List StpConfigMsg :=
  s.ports.filterMap fun p =>
    if stp_port_is_designated s p then stp_port_send_config s p else none

/-! ## get_port_priority (stp.c lines 143-157)

Each `tmp = a - b` in the C source subtracts two u64 (or u32, or u16) fields
and assigns the wrapped difference to a signed 32-bit `int`; the conversion
keeps the low 32 bits (two's complement). `toInt32` spells that out. The
term `w * tmp/abs(tmp)` is an exact division, equal to `w` times the sign of
`tmp` whenever `tmp` is nonzero. -/

def toInt32 (n : Nat) : Int :=
  if n % 4294967296 < 2147483648 then ((n % 4294967296 : Nat) : Int)
  else ((n % 4294967296 : Nat) : Int) - 4294967296

/-- Wrapping u64 subtraction a - b (both operands below 2^64). -/
def wrap64 (a b : Nat) : Nat :=
  (a + 18446744073709551616 - b) % 18446744073709551616

/-- Wrapping u32 subtraction a - b (both operands below 2^32). -/
def wrap32 (a b : Nat) : Nat :=
  (a + 4294967296 - b) % 4294967296

/-- One summand of get_port_priority: 0 when tmp is 0, else w*tmp/abs(tmp). -/
def sgnTerm (w t : Int) : Int :=
  if t = 0 then 0 else w * t / (t.natAbs : Int)

def get_port_priority (config : StpConfig) (p : StpPort) : Int :=
  sgnTerm 8 (toInt32 (wrap64 config.root_id p.designated_root)) +
  sgnTerm 4 (toInt32 (wrap32 config.root_path_cost p.designated_cost)) +
  sgnTerm 2 (toInt32 (wrap64 config.switch_id p.designated_switch)) +
  sgnTerm 1 ((config.port_id : Int) - (p.designated_port : Int))

/-! The spec side of claim C1: a plain lexicographic comparison of the two
unsigned quadruples (root_id, root_path_cost, switch_id, port_id). -/

structure Quad where
  root_id : Nat
  cost : Nat
  switch_id : Nat
  port_id : Nat
deriving DecidableEq, Repr

def configQuad (c : StpConfig) : Quad :=
  ⟨c.root_id, c.root_path_cost, c.switch_id, c.port_id⟩

def portQuad (p : StpPort) : Quad :=
  ⟨p.designated_root, p.designated_cost, p.designated_switch, p.designated_port⟩

def cmpNat (a b : Nat) : Ordering :=
  if a < b then Ordering.lt else if b < a then Ordering.gt else Ordering.eq

/-- Lexicographic comparison of quadruples, following the spec words. -/
def quadCmp (x y : Quad) : Ordering :=
  match cmpNat x.root_id y.root_id with
  | Ordering.eq =>
    match cmpNat x.cost y.cost with
    | Ordering.eq =>
      match cmpNat x.switch_id y.switch_id with
      | Ordering.eq => cmpNat x.port_id y.port_id
      | o => o
    | o => o
  | o => o

/-! ## stp_handle_config_packet (stp.c lines 168-236)

The handler returns the new bridge state, the list of config BPDUs sent, and
whether the hello timer was stopped during this call. The byte-order
conversion at the top of the C function is the identity here because the
embedded config already carries numeric field values. -/

/-- The better-case overwrite of the receiving port's designated quadruple
(stp.c lines 208-211). -/
def betterPort (c : StpConfig) (p : StpPort) : StpPort :=
  {p with designated_port := c.port_id, designated_switch := c.switch_id,
          designated_cost := c.root_path_cost, designated_root := c.root_id}

def stp_handle_config_packet (s : StpState) (pi : Nat) (c : StpConfig) :
    StpState × List StpConfigMsg × Bool :=
  let p := s.ports.getD pi dfltPort
  let priority := get_port_priority c p
  if 0 < priority then
    let pWorse : StpPort :=
      {p with designated_port := p.port_id, designated_switch := s.switch_id}
    ({s with ports := s.ports.set pi pWorse}, [], false)
  else if priority = 0 then
    (s, stp_send_config s, false)
  else
    -- static root flag: stop the hello timer on the first transition
    let stopped := s.rootStatic
    let p1 := betterPort c p
    let ports1 := s.ports.set pi p1
    let s1 := {s with ports := ports1, rootStatic := false}
    let newCost := (p1.designated_cost + p1.path_cost) % 4294967296
    let ports2 := ports1.map fun q =>
      if q.port_id ≠ p1.port_id then
        {q with designated_cost := newCost, designated_root := c.root_id}
      else q
    let s3 := {s1 with root_port := some pi, designated_root := c.root_id,
                       root_path_cost := newCost, ports := ports2}
    let elected := (s3, stp_send_config s3, stopped)
    match s.root_port with
    | some ri =>
      if 0 ≤ get_port_priority c (ports1.getD ri dfltPort) then (s1, [], stopped)
      else elected
    | none => elected

/-! ## Traces of config-BPDU handling (claim C8) -/

/-- Run a sequence of received config BPDUs; record, per step, whether the
hello timer was stopped at that step. -/
def stp_run : StpState → List (Nat × StpConfig) → List Bool
  | _, [] => []
  | s, ic :: t =>
    let r := stp_handle_config_packet s ic.1 ic.2
    r.2.2 :: stp_run r.1 t

/-- Per step of the same run, whether the BPDU compared better than the
receiving port's stored quadruple at the moment it was processed. -/
def stp_betters : StpState → List (Nat × StpConfig) → List Bool
  | _, [] => []
  | s, ic :: t =>
    decide (get_port_priority ic.2 (s.ports.getD ic.1 dfltPort) < 0) ::
      stp_betters (stp_handle_config_packet s ic.1 ic.2).1 t

/-- Keep only the first true of a boolean list. -/
def firstTrueOnly : List Bool → List Bool
  | [] => []
  | b :: t => if b then true :: List.replicate t.length false
              else false :: firstTrueOnly t

/-! ## mOSPF data model (mospf_daemon.c, mospf_nbr.h, mospf_database.h)

All stored fields are in host byte order; the ntohl/ntohs/htonl calls of the C
code are the (bijective) wire decoding and encoding, so the embedded packets
carry the numeric field values directly. -/

/-- Values of the mOSPF timing constants live in companion headers that are
not under src/; the proofs never depend on them. -/
def MOSPF_NEIGHBOR_TIMEOUT : Nat := 40

def MOSPF_MAX_LSU_TTL : Nat := 32

def DEFAULT_TTL : Nat := 64

/-- Values of MAX_DIST and BAD_GW live in a companion header that is not
under src/; MAX_DIST only needs to exceed every real path length. -/
def MAX_DIST : Nat := 2147483647

def BAD_GW : Nat := 0

structure Neighbor where
  nbr_id : Nat
  nbr_ip : Nat
  nbr_mask : Nat
  alive : Nat
deriving DecidableEq, Repr

structure Iface where
  ip : Nat
  mask : Nat
  mac : Nat
  nbrs : List Neighbor
  num_nbr : Nat
deriving DecidableEq, Repr

def dfltIface : Iface := ⟨0, 0, 0, [], 0⟩

structure Lsa where
  subnet : Nat
  mask : Nat
  rid : Nat
deriving DecidableEq, Repr

/-- One LSDB entry. The C code inserts fresh entries with seq = 0 and leaves
nadv/array uninitialised until the first accepted LSU; the embedding uses
0 and [] for those uninitialised fields. -/
structure DbEntry where
  rid : Nat
  seq : Nat
  nadv : Nat
  array : List Lsa
deriving DecidableEq, Repr

structure RtEntry where
  dest : Nat
  mask : Nat
  gw : Nat
  dist : Nat
  iface : Option Iface
deriving DecidableEq, Repr

def dfltRt : RtEntry := ⟨0, 0, 0, 0, none⟩

/-- The process-wide ustack_t instance fields the mOSPF core uses, the
global nbr_changed flag, the LSDB and the routing table. -/
structure MospfState where
  router_id : Nat
  area_id : Nat
  sequence_num : Nat
  nbr_changed : Bool
  ifaces : List Iface
  lsdb : List DbEntry
  rtable : List RtEntry
deriving DecidableEq, Repr

/-- An LSU packet (Ethernet + IP + mOSPF header + LSU body + LSAs) with all
multi-byte fields already decoded to numbers. -/
structure LsuWire where
  eth_src : Nat
  eth_dst : Nat
  ip_saddr : Nat
  ip_daddr : Nat
  ip_ttl : Nat
  ip_checksum : Nat
  mospf_rid : Nat
  mospf_aid : Nat
  mospf_checksum : Nat
  lsu_seq : Nat
  lsu_ttl : Nat
  lsu_nadv : Nat
  lsas : List Lsa
deriving DecidableEq, Repr

/-- The part of the packet covered by the IP header checksum. -/
structure IpContent where
  saddr : Nat
  daddr : Nat
  ttl : Nat
deriving DecidableEq, Repr

def ipContent (p : LsuWire) : IpContent := ⟨p.ip_saddr, p.ip_daddr, p.ip_ttl⟩

/-- The part of the packet covered by the mOSPF checksum (header + body). -/
structure MospfContent where
  rid : Nat
  aid : Nat
  seq : Nat
  ttl : Nat
  nadv : Nat
  lsas : List Lsa
deriving DecidableEq, Repr

def mospfContent (p : LsuWire) : MospfContent :=
  ⟨p.mospf_rid, p.mospf_aid, p.lsu_seq, p.lsu_ttl, p.lsu_nadv, p.lsas⟩

/-- A Hello packet as read by handle_mospf_hello: mospf.rid, ip.saddr and
hello.mask, after ntohl. -/
structure HelloPkt where
  rid : Nat
  saddr : Nat
  mask : Nat
deriving DecidableEq, Repr

/-! ## handle_mospf_hello (mospf_daemon.c lines 170-201) -/

/-- The scan loop of handle_mospf_hello: refresh the first neighbor whose
nbr_id matches, or report that none matched. -/
def hello_refresh : List Neighbor → Nat → Option (List Neighbor)
  | [], _ => none
  | n :: t, rid =>
    if n.nbr_id == rid then some ({n with alive := MOSPF_NEIGHBOR_TIMEOUT} :: t)
    else (hello_refresh t rid).map (n :: ·)

def handle_mospf_hello (s : MospfState) (ii : Nat) (pkt : HelloPkt) : MospfState :=
  let ifc := s.ifaces.getD ii dfltIface
  match hello_refresh ifc.nbrs pkt.rid with
  | some nbrs1 => {s with ifaces := s.ifaces.set ii {ifc with nbrs := nbrs1}}
  | none =>
    let nbr : Neighbor := ⟨pkt.rid, pkt.saddr, pkt.mask, MOSPF_NEIGHBOR_TIMEOUT⟩
    {s with
      ifaces := s.ifaces.set ii
        {ifc with nbrs := ifc.nbrs ++ [nbr], num_nbr := ifc.num_nbr + 1},
      nbr_changed := true}

/-! ## handle_mospf_lsu (mospf_daemon.c lines 335-401) -/

/-- The lookup-or-insert prefix of handle_mospf_lsu: a missing entry for the
sender is inserted at the tail with seq = 0. -/
def lookupOrInsert (lsdb : List DbEntry) (rid : Nat) : List DbEntry :=
  if lsdb.any (fun db => db.rid == rid) then lsdb
  else lsdb ++ [⟨rid, 0, 0, []⟩]

/-- Overwrite seq/nadv/array of the first entry with the given rid. -/
def dbReplace : List DbEntry → Nat → Nat → Nat → List Lsa → List DbEntry
  | [], _, _, _, _ => []
  | db :: t, rid, seq, nadv, arr =>
    if db.rid == rid then ⟨db.rid, seq, nadv, arr⟩ :: t
    else db :: dbReplace t rid seq nadv arr

/-- The inner loop of the flood: one clone per neighbor of this interface.
The C code's `eth` pointer still refers to the received packet, so the
memcpy of the out-interface MAC lands in the original buffer after the clone
was taken: each clone carries the source MAC the original buffer held when it
was copied (threaded here as `src`), and the buffer then holds ifc.mac. -/
def floodNbrs (ick : IpContent → Nat) (ifc : Iface) (pkt1 : LsuWire) :
    Nat → List Neighbor → List LsuWire × Nat
  | src, [] => ([], src)
  | src, n :: ns =>
    let q0 := {pkt1 with eth_src := src, ip_saddr := ifc.ip, ip_daddr := n.nbr_ip}
    let q := {q0 with ip_checksum := ick (ipContent q0)}
    let rest := floodNbrs ick ifc pkt1 ifc.mac ns
    (q :: rest.1, rest.2)

/-- The outer loop of the flood: every interface except the arrival one
(index ii), threading the original buffer's source MAC. -/
def floodLsuAux (ick : IpContent → Nat) :
    List Iface → Nat → Nat → LsuWire → Nat → List LsuWire × Nat
  | [], _, _, _, src => ([], src)
  | ifc :: rest, k, ii, pkt1, src =>
    if k = ii then floodLsuAux ick rest (k + 1) ii pkt1 src
    else
      let inner := floodNbrs ick ifc pkt1 src ifc.nbrs
      let tail := floodLsuAux ick rest (k + 1) ii pkt1 inner.2
      (inner.1 ++ tail.1, tail.2)

/-- handle_mospf_lsu. `mck`/`ick` abstract the host-provided mospf_checksum
and ip_checksum helpers. `ii` is the index of the arrival interface (the C
code compares interface pointers). Returns the new state and the clones
sent. The lsu.ttl field is a u16 and ip.ttl a u8 on the wire; the in-place
decrements wrap accordingly. -/
def handle_mospf_lsu (mck : MospfContent → Nat) (ick : IpContent → Nat)
    (s : MospfState) (ii : Nat) (pkt : LsuWire) : MospfState × List LsuWire :=
  let lsdb1 := lookupOrInsert s.lsdb pkt.mospf_rid
  let stored :=
    (lsdb1.find? (fun db => db.rid == pkt.mospf_rid)).getD ⟨pkt.mospf_rid, 0, 0, []⟩
  if stored.seq < pkt.lsu_seq then
    let lsdb2 := dbReplace lsdb1 pkt.mospf_rid pkt.lsu_seq pkt.lsu_nadv
      (pkt.lsas.take pkt.lsu_nadv)
    let pkt0 := {pkt with lsu_ttl := (pkt.lsu_ttl + 65535) % 65536,
                          ip_ttl := (pkt.ip_ttl + 255) % 256}
    let pkt1 := {pkt0 with mospf_checksum := mck (mospfContent pkt0)}
    ({s with lsdb := lsdb2}, (floodLsuAux ick s.ifaces 0 ii pkt1 pkt.eth_src).1)
  else
    ({s with lsdb := lsdb1}, [])

/-! ## gw_to_iface / subnet_to_iface (mospf_daemon.c lines 436-457) -/

def gw_to_iface (s : MospfState) (gw : Nat) : Option Iface :=
  s.ifaces.find? (fun ifc => ifc.nbrs.any (fun n => n.nbr_id == gw))

def subnet_to_iface (s : MospfState) (subnet : Nat) : Option Iface :=
  s.ifaces.find? (fun ifc => Nat.land ifc.ip ifc.mask == subnet)

/-! ## generate_rt (mospf_daemon.c lines 460-616) -/

structure DistEntry where
  rid : Nat
  visited : Bool
  dist : Nat
  gw : Nat
deriving DecidableEq, Repr

def dfltDist : DistEntry := ⟨0, false, 0, 0⟩

/-- Index of the first LSDB entry whose rid equals the given rid, following
the C inner loop: j counts up and reaches rnum when no entry matches. -/
def lsaColIndex (lsdb : List DbEntry) (rid : Nat) : Nat :=
  match lsdb.findIdx? (fun db1 => db1.rid == rid) with
  | some j => j
  | none => lsdb.length

/-- All (row, column) index pairs at which the adjacency-matrix construction
writes graph[k][j] = 1. An LSA whose rid matches no entry yields j = rnum. -/
def graphWrites (lsdb : List DbEntry) : List (Nat × Nat) :=
  lsdb.enum.flatMap fun kdb =>
    (kdb.2.array.take kdb.2.nadv).map fun lsa => (kdb.1, lsaColIndex lsdb lsa.rid)

/-- The graph VLA as a flat offset map, reproducing the row-major aliasing of
the C array: a write at (k, rnum) lands at offset k*rnum + rnum, which is
element (k+1, 0) when k+1 < rnum. -/
def graphAt (lsdb : List DbEntry) (off : Nat) : Nat :=
  if (graphWrites lsdb).any (fun kj => kj.1 * lsdb.length + kj.2 == off) then 1
  else 0

/-- The find-minimum scan of the Dijkstra main loop: strict comparison
against a running minimum that starts at MAX_DIST, min_j starting at 0. -/
def findMin (d : List DistEntry) : Nat :=
  (d.enum.foldl
    (fun acc je =>
      if je.2.visited = false ∧ je.2.dist < acc.1 then (je.2.dist, je.1) else acc)
    (MAX_DIST, 0)).2

/-- One iteration of the Dijkstra main loop: pick, mark visited, relax. -/
def dijkstraStep (graph : Nat → Nat) (rnum : Nat) (d : List DistEntry) :
    List DistEntry :=
  let mj := findMin d
  let d1 := d.set mj {d.getD mj dfltDist with visited := true}
  let dm := d1.getD mj dfltDist
  d1.enum.map fun je =>
    let g := graph (mj * rnum + je.1)
    if g ≠ 0 ∧ je.2.visited = false ∧ g + dm.dist < je.2.dist then
      {je.2 with dist := g + dm.dist, gw := if dm.gw ≠ 0 then dm.gw else dm.rid}
    else je.2

def dijkstra (graph : Nat → Nat) (rnum : Nat) (d0 : List DistEntry) :
    List DistEntry :=
  (List.range (rnum - 1)).foldl (fun d _ => dijkstraStep graph rnum d) d0

/-- new_rt_entry. Modelled from the spec: the routing-table constructors are
host-provided (§6); a fresh row starts with dist 0. -/
def new_rt_entry (dest mask gw : Nat) (ifc : Option Iface) : RtEntry :=
  ⟨dest, mask, gw, 0, ifc⟩

/-- The per-LSA body of the rtable transfer loop. -/
def transferLsa (s : MospfState) (dj : DistEntry) (lsa : Lsa)
    (rt : List RtEntry) : List RtEntry :=
  match rt.findIdx? (fun r => r.dest == lsa.subnet) with
  | some idx =>
    let r := rt.getD idx dfltRt
    if dj.dist < r.dist then
      let ifc := if dj.gw ≠ 0 then gw_to_iface s dj.gw
                 else subnet_to_iface s lsa.subnet
      let r1 := {r with dist := dj.dist, gw := dj.gw, iface := ifc}
      let r2 := match ifc with
        | some i => {r1 with mask := i.mask}
        | none => r1
      rt.set idx r2
    else rt
  | none =>
    match gw_to_iface s dj.gw with
    | none =>
      if dj.gw ≠ 0 then rt
      else rt ++ [new_rt_entry lsa.subnet lsa.mask 0 (subnet_to_iface s lsa.subnet)]
    | some _ =>
      let ifc := if dj.gw ≠ 0 then gw_to_iface s dj.gw
                 else subnet_to_iface s lsa.subnet
      rt ++ [{new_rt_entry lsa.subnet ((ifc.getD dfltIface).mask) dj.gw ifc with
               dist := dj.dist}]

/-- generate_rt. The previous routing-table contents are an argument only to
record that clear_rtable/init_rtable (host-provided; modelled from the spec
as resetting the table to empty) discard them. The self entry is the last
matching one, as in the C scan that assigns self_db without breaking. -/
def generate_rt (s : MospfState) (_prevRt : List RtEntry) : List RtEntry :=
  let selfDb := s.lsdb.foldl
    (fun acc db => if db.rid == s.router_id then some db else acc) none
  match selfDb with
  | none => []
  | some self_db =>
    let rnum := s.lsdb.length
    let dist0 := s.lsdb.map fun db =>
      if db.rid == s.router_id then (⟨db.rid, true, 0, 0⟩ : DistEntry)
      else if (self_db.array.take self_db.nadv).any (fun lsa => db.rid == lsa.rid)
      then ⟨db.rid, false, 1, db.rid⟩
      else ⟨db.rid, false, MAX_DIST, BAD_GW⟩
    let distF := dijkstra (graphAt s.lsdb) rnum dist0
    s.lsdb.enum.foldl
      (fun rt jdb =>
        (jdb.2.array.take jdb.2.nadv).foldl
          (fun rt2 lsa => transferLsa s (distF.getD jdb.1 dfltDist) lsa rt2) rt)
      []

/-! ## sending_mospf_lsu_thread, one loop body (mospf_daemon.c lines 211-329)

The wait loop and left_interval countdown are timing and are not modelled;
the body below starts where nbr_changed is cleared. -/

/-- Replace seq/nadv/array of the first entry whose rid matches, or append a
fresh entry at the tail (the upsert of the local entry). -/
def upsertSelf : List DbEntry → Nat → Nat → Nat → List Lsa → List DbEntry
  | [], rid, seq, nadv, arr => [⟨rid, seq, nadv, arr⟩]
  | db :: t, rid, seq, nadv, arr =>
    if db.rid == rid then ⟨db.rid, seq, nadv, arr⟩ :: t
    else db :: upsertSelf t rid seq nadv arr

/-- One body of the LSU emitter: build the self-LSA list, upsert the local
LSDB entry (with the pre-increment sequence number), increment
instance.sequence_num, build the LSU with the post-increment sequence
number, send one clone per neighbor of every interface, then run SPF.
Returns the new state, the packet template, and the clones sent. -/
def lsu_emit (mck : MospfContent → Nat) (ick : IpContent → Nat)
    (s : MospfState) : MospfState × LsuWire × List LsuWire :=
  let nadv := s.ifaces.foldl
    (fun a ifc => a + (if ifc.num_nbr = 0 then 1 else ifc.num_nbr)) 0
  let lsa_list := s.ifaces.flatMap fun ifc =>
    (if ifc.nbrs = [] then [(⟨Nat.land ifc.ip ifc.mask, ifc.mask, 0⟩ : Lsa)]
     else []) ++
    ifc.nbrs.map fun n => ⟨Nat.land n.nbr_ip n.nbr_mask, n.nbr_mask, n.nbr_id⟩
  let lsdb1 := upsertSelf s.lsdb s.router_id s.sequence_num nadv lsa_list
  let seq1 := (s.sequence_num + 1) % 65536
  let pkt0 : LsuWire :=
    { eth_src := 0, eth_dst := 0, ip_saddr := 0, ip_daddr := 0,
      ip_ttl := DEFAULT_TTL, ip_checksum := 0,
      mospf_rid := s.router_id, mospf_aid := s.area_id, mospf_checksum := 0,
      lsu_seq := seq1, lsu_ttl := MOSPF_MAX_LSU_TTL, lsu_nadv := nadv,
      lsas := lsa_list.take nadv }
  let pkt1 := {pkt0 with mospf_checksum := mck (mospfContent pkt0)}
  let sends := s.ifaces.flatMap fun ifc =>
    ifc.nbrs.map fun n =>
      let q0 := {pkt1 with ip_saddr := ifc.ip, ip_daddr := n.nbr_ip,
                           eth_src := ifc.mac}
      {q0 with ip_checksum := ick (ipContent q0)}
  let s1 := {s with sequence_num := seq1, lsdb := lsdb1, nbr_changed := false}
  ({s1 with rtable := generate_rt s1 s.rtable}, pkt1, sends)

/-! ## Concrete inputs used by witnesses and counterexamples -/

/-- A one-port root bridge (switch_id 20, port designated by itself). -/
def sW : StpState :=
  { switch_id := 20, designated_root := 20, root_path_cost := 0,
    root_port := none, ports := [⟨1, 1, 10, 20, 1, 0⟩], rootStatic := true }

/-- A BPDU that compares better than sW's port (root_id 5 < 10). -/
def cBetter : StpConfig := ⟨5, 0, 7, 3⟩

/-- A BPDU that compares better again after cBetter (root_id 3 < 5). -/
def cBetter2 : StpConfig := ⟨3, 0, 7, 3⟩

/-- A BPDU that compares worse than sW's port (root_id 30 > 10). -/
def cWorse : StpConfig := ⟨30, 0, 20, 1⟩

def ck0M : MospfContent → Nat := fun _ => 0

def ck0I : IpContent → Nat := fun _ => 0

/-- A state whose LSDB already holds entry rid 2 with seq 5. -/
def s3m : MospfState :=
  { router_id := 1, area_id := 0, sequence_num := 0, nbr_changed := false,
    ifaces := [], lsdb := [⟨2, 5, 1, [⟨8, 9, 0⟩]⟩], rtable := [] }

/-- An LSU from rid 2 with seq 5 (not newer than s3m's stored seq). -/
def pkt3 : LsuWire := ⟨99, 0, 33, 11, 64, 0, 2, 0, 0, 5, 8, 1, [⟨8, 9, 2⟩]⟩

/-- A router with one neighborless interface, empty LSDB, sequence_num 0. -/
def s4m : MospfState :=
  { router_id := 5, area_id := 0, sequence_num := 0, nbr_changed := true,
    ifaces := [⟨11, 12, 7, [], 0⟩], lsdb := [], rtable := [] }

/-- Two interfaces; arrival will be on index 0; interface 1 (mac 7) has one
neighbor with ip 33. -/
def s5m : MospfState :=
  { router_id := 1, area_id := 0, sequence_num := 0, nbr_changed := false,
    ifaces := [⟨11, 12, 100, [], 0⟩, ⟨22, 12, 7, [⟨2, 33, 12, 3⟩], 1⟩],
    lsdb := [], rtable := [] }

/-- An LSU from rid 2, seq 1, lsu ttl 8, ip ttl 64, source MAC 99. -/
def pkt5 : LsuWire := ⟨99, 0, 33, 11, 64, 0, 2, 0, 0, 1, 8, 1, [⟨8, 12, 0⟩]⟩

/-- An LSDB holding only the local entry (rid 1), whose single LSA is a stub
(rid 0). -/
def lsdb6 : List DbEntry := [⟨1, 1, 1, [⟨8, 12, 0⟩]⟩]

/-- A state whose LSDB has an entry, but none matching router_id 5. -/
def s9m : MospfState :=
  { router_id := 5, area_id := 0, sequence_num := 0, nbr_changed := false,
    ifaces := [⟨11, 12, 7, [], 0⟩], lsdb := [⟨7, 1, 0, []⟩], rtable := [] }

def prev9 : List RtEntry := [⟨1, 2, 3, 4, none⟩]

/-- One interface with two neighbors (ids 4 and 6); nonempty LSDB and
routing table so the frame effect of a Hello refresh is visible. -/
def s10m : MospfState :=
  { router_id := 9, area_id := 0, sequence_num := 0, nbr_changed := false,
    ifaces := [⟨11, 12, 100, [⟨4, 44, 12, 2⟩, ⟨6, 66, 12, 9⟩], 2⟩],
    lsdb := [⟨1, 1, 0, []⟩], rtable := [⟨1, 2, 3, 4, none⟩] }

/-- A Hello from known neighbor 6 whose source ip and mask differ from the
stored nbr_ip/nbr_mask. -/
def pkt10 : HelloPkt := ⟨6, 77, 13⟩

/-! ## Helper list lemmas (proved here to keep the development self-contained) -/

theorem getD_set_self {α : Type} (x d : α) :
    ∀ (l : List α) (i : Nat), i < l.length → (l.set i x).getD i d = x := by
  intro l
  induction l with
  | nil => intro i h; simp at h
  | cons a t ih =>
    intro i h
    cases i with
    | zero => rfl
    | succ j =>
      simp only [List.set, List.getD, List.get?]
      exact ih j (by simpa using h)


/-! ## Sign analysis of get_port_priority -/

theorem sgnTerm_pos (w : Int) {t : Int} (h : 0 < t) : sgnTerm w t = w := by
  unfold sgnTerm
  rw [if_neg (by omega : ¬ t = 0)]
  have h1 : ((t.natAbs : Int)) = t := by omega
  rw [h1]
  exact Int.mul_ediv_cancel w (by omega)

theorem sgnTerm_neg (w : Int) {t : Int} (h : t < 0) : sgnTerm w t = -w := by
  unfold sgnTerm
  rw [if_neg (by omega : ¬ t = 0)]
  have h1 : ((t.natAbs : Int)) = -t := by omega
  rw [h1, show w * t = (-w) * (-t) by ring]
  exact Int.mul_ediv_cancel (-w) (by omega)

/-- When both u64 operands are below 2^31, the wrap-and-truncate difference
agrees with the mathematical difference. -/
theorem toInt32_wrap64_eq {a b : Nat}
    (ha : a < 2147483648) (hb : b < 2147483648) :
    toInt32 (wrap64 a b) = (a : Int) - (b : Int) := by
  unfold toInt32 wrap64
  split <;> omega

/-- When both u32 operands are below 2^31, the wrap-and-truncate difference
agrees with the mathematical difference. -/
theorem toInt32_wrap32_eq {a b : Nat}
    (ha : a < 2147483648) (hb : b < 2147483648) :
    toInt32 (wrap32 a b) = (a : Int) - (b : Int) := by
  unfold toInt32 wrap32
  split <;> omega

theorem sgnTerm_natDiff (w : Int) (a b : Nat) :
    sgnTerm w ((a : Int) - (b : Int)) =
      if a < b then -w else if b < a then w else 0 := by
  rcases Nat.lt_trichotomy a b with h | h | h
  · rw [if_pos h, sgnTerm_neg w (by omega : (a : Int) - (b : Int) < 0)]
  · subst h
    rw [if_neg (lt_irrefl a), if_neg (lt_irrefl a)]
    simp [sgnTerm]
  · rw [if_neg (by omega), if_pos h,
      sgnTerm_pos w (by omega : (0 : Int) < (a : Int) - (b : Int))]


/-! ## Claim C1 -/

/-- Claim C1, as stated, is false: the u64 subtraction of root_id fields is
truncated to a 32-bit int, so a BPDU whose root_id exceeds the port's by
exactly 2^32 compares as a tie although its quadruple is lexicographically
greater. -/
theorem get_port_priority_trunc_counterexample :
    get_port_priority ⟨4294967296, 0, 0, 0⟩ ⟨0, 0, 0, 0, 0, 0⟩ = 0 ∧
    quadCmp (configQuad ⟨4294967296, 0, 0, 0⟩) (portQuad ⟨0, 0, 0, 0, 0, 0⟩) =
      Ordering.gt := by
  constructor <;> decide

/-- Claim C1 (amended): whenever every compared field is below 2^31 (so each
difference survives the wrap-and-truncate conversions), the sign of
get_port_priority equals the lexicographic comparison of the unsigned
quadruples: positive iff the BPDU's quadruple is greater, negative iff it is
smaller, zero iff they are equal. -/
theorem get_port_priority_lex_sign (c : StpConfig) (p : StpPort)
    (h1 : c.root_id < 2147483648) (h2 : p.designated_root < 2147483648)
    (h3 : c.root_path_cost < 2147483648) (h4 : p.designated_cost < 2147483648)
    (h5 : c.switch_id < 2147483648) (h6 : p.designated_switch < 2147483648) :
    (0 < get_port_priority c p ↔
      quadCmp (configQuad c) (portQuad p) = Ordering.gt) ∧
    (get_port_priority c p < 0 ↔
      quadCmp (configQuad c) (portQuad p) = Ordering.lt) ∧
    (get_port_priority c p = 0 ↔
      quadCmp (configQuad c) (portQuad p) = Ordering.eq) := by
  unfold get_port_priority quadCmp configQuad portQuad cmpNat
  rw [toInt32_wrap64_eq h1 h2, toInt32_wrap32_eq h3 h4, toInt32_wrap64_eq h5 h6,
    sgnTerm_natDiff, sgnTerm_natDiff, sgnTerm_natDiff, sgnTerm_natDiff]
  split_ifs <;> decide

/-- Witness for the amended claim C1 at a concrete in-bounds input. -/
theorem get_port_priority_lex_sign_witness :
    (5 : Nat) < 2147483648 ∧ (10 : Nat) < 2147483648 ∧
    (get_port_priority ⟨5, 0, 7, 3⟩ ⟨1, 1, 10, 20, 1, 0⟩ < 0 ↔
      quadCmp (configQuad ⟨5, 0, 7, 3⟩) (portQuad ⟨1, 1, 10, 20, 1, 0⟩) =
        Ordering.lt) :=
  ⟨by decide, by decide,
    (get_port_priority_lex_sign ⟨5, 0, 7, 3⟩ ⟨1, 1, 10, 20, 1, 0⟩
      (by decide) (by decide) (by decide) (by decide) (by decide) (by decide)).2.1⟩

/-! ## Emission helpers under the root-or-root-port invariant -/

theorem stp_port_send_config_of_inv (s : StpState) (p : StpPort)
    (hinv : stp_is_root_switch s = true ∨ s.root_port ≠ none) :
    stp_port_send_config s p = some (stp_config_msg s p) := by
  unfold stp_port_send_config
  rw [if_neg]
  rintro ⟨hf, hn⟩
  rcases hinv with h | h
  · rw [h] at hf
    exact Bool.noConfusion hf
  · exact h hn

theorem stp_send_config_of_inv (s : StpState)
    (hinv : stp_is_root_switch s = true ∨ s.root_port ≠ none) :
    stp_send_config s = s.ports.filterMap (fun q =>
      if stp_port_is_designated s q then some (stp_config_msg s q) else none) := by
  unfold stp_send_config
  congr 1
  funext q
  rw [stp_port_send_config_of_inv s q hinv]

/-! ## Claim C7 -/

/-- Claim C7: a BPDU worse than the receiving port's stored quadruple makes
the port reassert itself as designated (designated_switch := switch_id,
designated_port := its own port_id) and nothing is sent; an equal BPDU
leaves every port and bridge field unchanged and emits one config BPDU from
every currently designated port. The disjunctive hypothesis (root bridge or
root port present) holds in every reachable state (stp_config_inv_init,
stp_config_inv_preserved) and rules out the emission suppression of
stp_port_send_config. -/
theorem stp_handle_worse_equal (s : StpState) (pi : Nat) (c : StpConfig)
    (hinv : stp_is_root_switch s = true ∨ s.root_port ≠ none) :
    (0 < get_port_priority c (s.ports.getD pi dfltPort) →
      stp_handle_config_packet s pi c =
        ({s with ports := s.ports.set pi ({s.ports.getD pi dfltPort with designated_port := (s.ports.getD pi dfltPort).port_id, designated_switch := s.switch_id})}, [], false)) ∧
    (get_port_priority c (s.ports.getD pi dfltPort) = 0 →
      stp_handle_config_packet s pi c =
        (s, s.ports.filterMap (fun q =>
            if stp_port_is_designated s q then some (stp_config_msg s q)
            else none), false)) := by
  constructor
  · intro h
    simp only [stp_handle_config_packet]
    rw [if_pos h]
  · intro h
    simp only [stp_handle_config_packet]
    rw [if_neg (by omega), if_pos h, stp_send_config_of_inv s hinv]

/-- Witness for claim C7 at a concrete input: a worse BPDU on the one-port
root bridge sW. -/
theorem stp_handle_worse_equal_witness :
    (stp_is_root_switch sW = true ∨ sW.root_port ≠ none) ∧
    0 < get_port_priority cWorse (sW.ports.getD 0 dfltPort) ∧
    stp_handle_config_packet sW 0 cWorse =
      ({sW with ports := sW.ports.set 0 ({sW.ports.getD 0 dfltPort with designated_port := (sW.ports.getD 0 dfltPort).port_id, designated_switch := sW.switch_id})}, [], false) :=
  ⟨Or.inl (by decide), by decide,
    (stp_handle_worse_equal sW 0 cWorse (Or.inl (by decide))).1 (by decide)⟩

theorem getD_map_of_lt {α β : Type} (f : α → β) (d : α) (e : β) :
    ∀ (l : List α) (i : Nat), i < l.length → (l.map f).getD i e = f (l.getD i d) := by
  intro l
  induction l with
  | nil => intro i h; simp at h
  | cons a t ih =>
    intro i h
    cases i with
    | zero => rfl
    | succ j =>
      simp only [List.map, List.getD, List.get?]
      exact ih j (by simpa using h)

/-! ## Claim C2 -/

/-- Claim C2: on a BPDU better than the receiving port, the port's stored
quadruple is overwritten from the BPDU. If an existing root port is still at
least as good as the BPDU (compared, as the code does, against the
just-updated port array), no bridge-level field changes and nothing is sent;
otherwise the receiving port becomes root_port, designated_root becomes the
BPDU's root_id, root_path_cost becomes the port's new designated_cost plus
its path_cost (u32 wrap), every other port (by port_id) inherits the new
designated_root and designated_cost, and one config BPDU is emitted from
every port that is designated in the final state. -/
theorem stp_handle_better (s : StpState) (pi : Nat) (c : StpConfig)
    (hpi : pi < s.ports.length)
    (h : get_port_priority c (s.ports.getD pi dfltPort) < 0) :
    ((stp_handle_config_packet s pi c).1.ports.getD pi dfltPort =
      betterPort c (s.ports.getD pi dfltPort)) ∧
    (∀ ri, s.root_port = some ri →
      0 ≤ get_port_priority c
        ((s.ports.set pi (betterPort c (s.ports.getD pi dfltPort))).getD ri dfltPort) →
      (stp_handle_config_packet s pi c).1.designated_root = s.designated_root ∧
      (stp_handle_config_packet s pi c).1.root_path_cost = s.root_path_cost ∧
      (stp_handle_config_packet s pi c).1.root_port = s.root_port ∧
      (stp_handle_config_packet s pi c).2.1 = []) ∧
    ((s.root_port = none ∨ ∃ ri, s.root_port = some ri ∧
        get_port_priority c
          ((s.ports.set pi (betterPort c (s.ports.getD pi dfltPort))).getD ri dfltPort) < 0) →
      (stp_handle_config_packet s pi c).1 =
        { switch_id := s.switch_id,
          designated_root := c.root_id,
          root_path_cost :=
            (c.root_path_cost + (s.ports.getD pi dfltPort).path_cost) % 4294967296,
          root_port := some pi,
          ports := (s.ports.set pi (betterPort c (s.ports.getD pi dfltPort))).map
            (fun q => if q.port_id ≠ (s.ports.getD pi dfltPort).port_id then {q with designated_cost := (c.root_path_cost + (s.ports.getD pi dfltPort).path_cost) % 4294967296, designated_root := c.root_id} else q),
          rootStatic := false } ∧
      (stp_handle_config_packet s pi c).2.1 =
        (stp_handle_config_packet s pi c).1.ports.filterMap (fun q =>
          if stp_port_is_designated (stp_handle_config_packet s pi c).1 q
          then some (stp_config_msg (stp_handle_config_packet s pi c).1 q)
          else none)) := by
  have hlt : ¬ (0 < get_port_priority c (s.ports.getD pi dfltPort)) := by omega
  have hne : ¬ (get_port_priority c (s.ports.getD pi dfltPort) = 0) := by omega
  refine ⟨?_, ?_, ?_⟩
  · simp only [stp_handle_config_packet]
    rw [if_neg hlt, if_neg hne]
    cases hrp : s.root_port with
    | none =>
      simp only []
      rw [getD_map_of_lt _ dfltPort _ _ pi (by simpa using hpi),
        getD_set_self _ dfltPort _ pi hpi]
      simp
    | some ri =>
      simp only []
      split
      · rw [getD_set_self _ dfltPort _ pi hpi]
      · rw [getD_map_of_lt _ dfltPort _ _ pi (by simpa using hpi),
          getD_set_self _ dfltPort _ pi hpi]
        simp
  · intro ri hri hge
    simp only [stp_handle_config_packet]
    rw [if_neg hlt, if_neg hne, hri]
    simp only []
    rw [if_pos hge]
    exact ⟨rfl, rfl, rfl, rfl⟩
  · intro h3
    simp only [stp_handle_config_packet]
    rcases h3 with hnone | ⟨ri, hri, hlt2⟩
    · rw [if_neg hlt, if_neg hne, hnone]
      refine ⟨rfl, ?_⟩
      exact stp_send_config_of_inv _ (Or.inr (by simp))
    · rw [if_neg hlt, if_neg hne, hri]
      simp only []
      rw [if_neg (by omega)]
      refine ⟨rfl, ?_⟩
      exact stp_send_config_of_inv _ (Or.inr (by simp))

/-- Witness for claim C2 at a concrete input: the better BPDU cBetter on the
one-port root bridge sW (no root port yet), electing port 0. -/
theorem stp_handle_better_witness :
    0 < sW.ports.length ∧
    get_port_priority cBetter (sW.ports.getD 0 dfltPort) < 0 ∧
    sW.root_port = none ∧
    (stp_handle_config_packet sW 0 cBetter).1.ports.getD 0 dfltPort =
      betterPort cBetter (sW.ports.getD 0 dfltPort) :=
  ⟨by decide, by decide, by decide,
    (stp_handle_better sW 0 cBetter (by decide) (by decide)).1⟩

/-! ## Timer-stop bookkeeping of the config handler -/

theorem stp_handle_flags (s : StpState) (pi : Nat) (c : StpConfig) :
    (stp_handle_config_packet s pi c).2.2 =
      (s.rootStatic && decide (get_port_priority c (s.ports.getD pi dfltPort) < 0)) ∧
    (stp_handle_config_packet s pi c).1.rootStatic =
      (s.rootStatic && !decide (get_port_priority c (s.ports.getD pi dfltPort) < 0)) := by
  rcases Int.lt_trichotomy 0 (get_port_priority c (s.ports.getD pi dfltPort)) with hp | hp | hp
  · have hd : decide (get_port_priority c (s.ports.getD pi dfltPort) < 0) = false := by
      simp only [decide_eq_false_iff_not]
      omega
    simp only [stp_handle_config_packet]
    rw [if_pos hp, hd]
    simp
  · have hd : decide (get_port_priority c (s.ports.getD pi dfltPort) < 0) = false := by
      simp only [decide_eq_false_iff_not]
      omega
    simp only [stp_handle_config_packet]
    rw [if_neg (by omega), if_pos hp.symm, hd]
    simp
  · have hd : decide (get_port_priority c (s.ports.getD pi dfltPort) < 0) = true := by
      simpa using hp
    simp only [stp_handle_config_packet]
    rw [if_neg (by omega), if_neg (by omega), hd]
    cases hrp : s.root_port with
    | none => simp
    | some ri =>
      simp only []
      split <;> simp

theorem stp_run_of_static_false :
    ∀ (l : List (Nat × StpConfig)) (s : StpState), s.rootStatic = false →
      stp_run s l = List.replicate l.length false := by
  intro l
  induction l with
  | nil => intro s _; rfl
  | cons ic t ih =>
    intro s h
    have h1 := (stp_handle_flags s ic.1 ic.2).1
    have h2 := (stp_handle_flags s ic.1 ic.2).2
    rw [h, Bool.false_and] at h1 h2
    simp only [stp_run, List.length_cons, List.replicate]
    rw [h1, ih _ h2]

theorem stp_betters_length :
    ∀ (l : List (Nat × StpConfig)) (s : StpState),
      (stp_betters s l).length = l.length := by
  intro l
  induction l with
  | nil => intro s; rfl
  | cons ic t ih =>
    intro s
    simp only [stp_betters, List.length_cons]
    rw [ih]

/-! ## Claim C8 -/

/-- Claim C8: starting from a process lifetime in which the static root flag
is still set, the hello timer is stopped exactly at the first handled BPDU
that compares better than its receiving port, and at no other step: the
per-step stop flags equal the better-than-port flags with only the first
true kept. -/
theorem stp_run_stops_once (s : StpState) (l : List (Nat × StpConfig))
    (h : s.rootStatic = true) :
    stp_run s l = firstTrueOnly (stp_betters s l) := by
  induction l generalizing s with
  | nil => rfl
  | cons ic t ih =>
    have h1 := (stp_handle_flags s ic.1 ic.2).1
    have h2 := (stp_handle_flags s ic.1 ic.2).2
    rw [h, Bool.true_and] at h1 h2
    simp only [stp_run, stp_betters, firstTrueOnly]
    cases hb : decide (get_port_priority ic.2 (s.ports.getD ic.1 dfltPort) < 0) with
    | false =>
      rw [hb] at h1 h2
      simp only [Bool.not_false] at h2
      rw [if_neg (by simp), h1, ih _ h2]
    | true =>
      rw [hb] at h1 h2
      simp only [Bool.not_true] at h2
      rw [if_pos rfl, h1, stp_run_of_static_false t _ h2, stp_betters_length t]

/-- Witness for claim C8: two successively better BPDUs on sW; only the
first stops the timer. -/
theorem stp_run_stops_once_witness :
    sW.rootStatic = true ∧
    stp_run sW [(0, cBetter), (0, cBetter2)] =
      firstTrueOnly (stp_betters sW [(0, cBetter), (0, cBetter2)]) ∧
    stp_run sW [(0, cBetter), (0, cBetter2)] = [true, false] :=
  ⟨rfl, stp_run_stops_once sW [(0, cBetter), (0, cBetter2)] rfl, by decide⟩

/-- A bridge fresh out of stp_init believes itself root. -/
theorem stp_config_inv_init (s : StpState) (h : s.designated_root = s.switch_id) :
    stp_is_root_switch s = true ∨ s.root_port ≠ none :=
  Or.inl (by simp [stp_is_root_switch, h])

/-- The root-or-root-port disjunction is preserved by every handled config
BPDU, so it holds in every reachable state. -/
theorem stp_config_inv_preserved (s : StpState) (pi : Nat) (c : StpConfig)
    (hinv : stp_is_root_switch s = true ∨ s.root_port ≠ none) :
    stp_is_root_switch (stp_handle_config_packet s pi c).1 = true ∨
    (stp_handle_config_packet s pi c).1.root_port ≠ none := by
  rcases Int.lt_trichotomy 0 (get_port_priority c (s.ports.getD pi dfltPort)) with hp | hp | hp
  · simp only [stp_handle_config_packet]
    rw [if_pos hp]
    exact hinv
  · simp only [stp_handle_config_packet]
    rw [if_neg (by omega), if_pos hp.symm]
    exact hinv
  · simp only [stp_handle_config_packet]
    rw [if_neg (by omega), if_neg (by omega)]
    cases hrp : s.root_port with
    | none => exact Or.inr (by simp)
    | some ri =>
      simp only []
      split
      · exact Or.inr (by simp)
      · exact Or.inr (by simp)

/-! ## LSDB lookup lemmas -/

theorem lookupOrInsert_any (lsdb : List DbEntry) (rid : Nat) :
    (lookupOrInsert lsdb rid).any (fun db => db.rid == rid) = true := by
  unfold lookupOrInsert
  split
  · assumption
  · simp [List.any_append]

theorem dbReplace_find (rid seq nadv : Nat) (arr : List Lsa) :
    ∀ l : List DbEntry, l.any (fun db => db.rid == rid) = true →
      (dbReplace l rid seq nadv arr).find? (fun db => db.rid == rid) =
        some ⟨rid, seq, nadv, arr⟩ := by
  intro l
  induction l with
  | nil => intro h; simp at h
  | cons db t ih =>
    intro h
    simp only [dbReplace]
    cases hdb : (db.rid == rid) with
    | true =>
      have hr : db.rid = rid := by simpa using hdb
      rw [if_pos rfl]
      simp [List.find?, hdb, hr]
    | false =>
      rw [if_neg (by simp)]
      simp only [List.find?, hdb]
      apply ih
      simpa [List.any_cons, hdb] using h

theorem upsertSelf_find (rid seq nadv : Nat) (arr : List Lsa) :
    ∀ l : List DbEntry,
      (upsertSelf l rid seq nadv arr).find? (fun db => db.rid == rid) =
        some ⟨rid, seq, nadv, arr⟩ := by
  intro l
  induction l with
  | nil => simp [upsertSelf, List.find?]
  | cons db t ih =>
    simp only [upsertSelf]
    cases hdb : (db.rid == rid) with
    | true =>
      have hr : db.rid = rid := by simpa using hdb
      rw [if_pos rfl]
      simp [List.find?, hdb, hr]
    | false =>
      rw [if_neg (by simp)]
      simp only [List.find?, hdb]
      exact ih

/-! ## Claim C3 -/

/-- Claim C3: a received LSU first ensures an LSDB entry for the sender's
rid exists (inserting one with seq 0 at the tail if absent, leaving the list
untouched if present); a packet whose seq is not strictly greater than the
stored seq leaves the LSDB exactly as after that lookup step and sends
nothing; a strictly greater seq replaces the entry's seq, nadv and LSA array
wholesale with the decoded packet values. -/
theorem handle_mospf_lsu_seq_gate (mck : MospfContent → Nat)
    (ick : IpContent → Nat) (s : MospfState) (ii : Nat) (pkt : LsuWire) :
    ((s.lsdb.any (fun db => db.rid == pkt.mospf_rid)) = false →
      lookupOrInsert s.lsdb pkt.mospf_rid = s.lsdb ++ [⟨pkt.mospf_rid, 0, 0, []⟩]) ∧
    ((s.lsdb.any (fun db => db.rid == pkt.mospf_rid)) = true →
      lookupOrInsert s.lsdb pkt.mospf_rid = s.lsdb) ∧
    (pkt.lsu_seq ≤ (((lookupOrInsert s.lsdb pkt.mospf_rid).find?
        (fun db => db.rid == pkt.mospf_rid)).getD ⟨pkt.mospf_rid, 0, 0, []⟩).seq →
      handle_mospf_lsu mck ick s ii pkt =
        ({s with lsdb := lookupOrInsert s.lsdb pkt.mospf_rid}, [])) ∧
    ((((lookupOrInsert s.lsdb pkt.mospf_rid).find?
        (fun db => db.rid == pkt.mospf_rid)).getD ⟨pkt.mospf_rid, 0, 0, []⟩).seq
        < pkt.lsu_seq →
      (handle_mospf_lsu mck ick s ii pkt).1.lsdb =
        dbReplace (lookupOrInsert s.lsdb pkt.mospf_rid) pkt.mospf_rid pkt.lsu_seq
          pkt.lsu_nadv (pkt.lsas.take pkt.lsu_nadv) ∧
      ((handle_mospf_lsu mck ick s ii pkt).1.lsdb.find?
          (fun db => db.rid == pkt.mospf_rid)) =
        some ⟨pkt.mospf_rid, pkt.lsu_seq, pkt.lsu_nadv, pkt.lsas.take pkt.lsu_nadv⟩) := by
  refine ⟨?_, ?_, ?_, ?_⟩
  · intro h
    simp [lookupOrInsert, h]
  · intro h
    simp [lookupOrInsert, h]
  · intro h
    simp only [handle_mospf_lsu]
    rw [if_neg (by omega)]
  · intro h
    simp only [handle_mospf_lsu]
    rw [if_pos h]
    exact ⟨rfl, dbReplace_find _ _ _ _ _ (lookupOrInsert_any s.lsdb pkt.mospf_rid)⟩

/-- Witness for claim C3: an LSU with seq equal to the stored seq (5) is
discarded without modifying the entry and without sending. -/
theorem handle_mospf_lsu_seq_gate_witness :
    pkt3.lsu_seq ≤ (((lookupOrInsert s3m.lsdb pkt3.mospf_rid).find?
        (fun db => db.rid == pkt3.mospf_rid)).getD ⟨pkt3.mospf_rid, 0, 0, []⟩).seq ∧
    handle_mospf_lsu ck0M ck0I s3m 0 pkt3 =
      ({s3m with lsdb := lookupOrInsert s3m.lsdb pkt3.mospf_rid}, []) :=
  ⟨by decide, (handle_mospf_lsu_seq_gate ck0M ck0I s3m 0 pkt3).2.2.1 (by decide)⟩

/-! ## Claim C4 -/

/-- Claim C4, as stated, is false at the concrete state s4m: after one
emission the local LSDB entry's seq is 0 while instance.sequence_num and the
wire sequence are 1 — the upsert stores the pre-increment value. -/
theorem lsu_emit_seq_counterexample :
    ((lsu_emit ck0M ck0I s4m).1.lsdb.find?
        (fun db => db.rid == s4m.router_id)).map DbEntry.seq = some 0 ∧
    (lsu_emit ck0M ck0I s4m).1.sequence_num = 1 ∧
    (lsu_emit ck0M ck0I s4m).2.1.lsu_seq = 1 ∧
    ((lsu_emit ck0M ck0I s4m).1.lsdb.find?
        (fun db => db.rid == s4m.router_id)).map DbEntry.seq ≠
      some (lsu_emit ck0M ck0I s4m).1.sequence_num := by
  refine ⟨?_, ?_, ?_, ?_⟩ <;> decide

/-- Claim C4 (amended): each LSU emission increments instance.sequence_num
exactly once (by one, mod 2^16); the transmitted LSU carries the
post-increment value, while the local LSDB entry's seq is the pre-increment
value, one behind the wire sequence. -/
theorem lsu_emit_seq (mck : MospfContent → Nat) (ick : IpContent → Nat)
    (s : MospfState) :
    (lsu_emit mck ick s).1.sequence_num = (s.sequence_num + 1) % 65536 ∧
    ((lsu_emit mck ick s).1.lsdb.find?
        (fun db => db.rid == s.router_id)).map DbEntry.seq = some s.sequence_num ∧
    (lsu_emit mck ick s).2.1.lsu_seq = (s.sequence_num + 1) % 65536 := by
  refine ⟨rfl, ?_, rfl⟩
  simp only [lsu_emit]
  rw [upsertSelf_find]
  rfl

/-! ## Claim C5 -/

/-- Claim C5 fails on the Ethernet source: the flood writes the
out-interface MAC through the stale `eth` pointer into the received packet
after the clone was taken, so the (single) clone keeps the received packet's
source MAC 99 instead of the out-interface's MAC 7. TTL decrements,
recomputed checksums, saddr and daddr are as claimed. -/
theorem handle_mospf_lsu_stale_eth_src :
    (handle_mospf_lsu ck0M ck0I s5m 0 pkt5).2 =
      [⟨99, 0, 22, 33, 63, 0, 2, 0, 0, 1, 7, 1, [⟨8, 12, 0⟩]⟩] ∧
    (s5m.ifaces.getD 1 dfltIface).mac = 7 ∧ (99 : Nat) ≠ 7 := by
  refine ⟨?_, ?_, ?_⟩ <;> decide

/-! ## Claim C6 -/

/-- Claim C6 fails: with the one-entry LSDB lsdb6 whose only LSA is a stub
(rid 0), the adjacency construction performs the write graph[0][1] although
rnum = 1 — a stub LSA produces an out-of-bounds write, not no edge. -/
theorem generate_rt_stub_oob :
    graphWrites lsdb6 = [(0, 1)] ∧ lsdb6.length = 1 ∧
    ¬ ((1 : Nat) < lsdb6.length) := by
  refine ⟨?_, ?_, ?_⟩ <;> decide

/-! ## Claim C9 -/

theorem foldl_lastMatch_none (rid : Nat) :
    ∀ (l : List DbEntry) (acc : Option DbEntry),
      (∀ db ∈ l, db.rid ≠ rid) →
      l.foldl (fun acc1 db => if db.rid == rid then some db else acc1) acc = acc := by
  intro l
  induction l with
  | nil => intro acc _; rfl
  | cons d t ih =>
    intro acc h
    simp only [List.foldl]
    rw [if_neg (by simpa using h d (List.mem_cons_self d t))]
    exact ih acc (fun db hdb => h db (List.mem_cons_of_mem d hdb))

/-- Claim C9: when no LSDB entry matches instance.router_id, generate_rt
returns after the clear/re-init, leaving the routing table empty whatever it
previously contained. -/
theorem generate_rt_no_self_empty (s : MospfState) (prev : List RtEntry)
    (h : ∀ db ∈ s.lsdb, db.rid ≠ s.router_id) :
    generate_rt s prev = [] := by
  simp only [generate_rt]
  rw [foldl_lastMatch_none s.router_id s.lsdb none h]

/-- Witness for claim C9: an LSDB with a single non-matching entry and a
nonempty previous routing table. -/
theorem generate_rt_no_self_empty_witness :
    (∀ db ∈ s9m.lsdb, db.rid ≠ s9m.router_id) ∧ generate_rt s9m prev9 = [] :=
  ⟨by decide, generate_rt_no_self_empty s9m prev9 (by decide)⟩

/-! ## Claim C10 -/

theorem hello_refresh_split (rid : Nat) :
    ∀ (pre : List Neighbor) (m : Neighbor) (post : List Neighbor),
      (∀ n ∈ pre, n.nbr_id ≠ rid) → m.nbr_id = rid →
      hello_refresh (pre ++ m :: post) rid =
        some (pre ++ ({m with alive := MOSPF_NEIGHBOR_TIMEOUT}) :: post) := by
  intro pre
  induction pre with
  | nil =>
    intro m post _ hm
    simp only [List.nil_append, hello_refresh]
    rw [if_pos (by simpa using hm)]
  | cons n t ih =>
    intro m post hpre hm
    simp only [List.cons_append, hello_refresh, List.append_eq]
    rw [if_neg (by simpa using hpre n (List.mem_cons_self n t))]
    rw [ih m post (fun x hx => hpre x (List.mem_cons_of_mem n hx)) hm]
    rfl

/-- Claim C10: a Hello from an already-known neighbor (first matching entry
m after a non-matching prefix) only resets that neighbor's alive field to
MOSPF_NEIGHBOR_TIMEOUT; the stored nbr_ip/nbr_mask, the interface's num_nbr,
nbr_changed, the LSDB and the routing table are unchanged, whatever saddr
and mask the packet carries. -/
theorem handle_mospf_hello_known (s : MospfState) (ii : Nat) (pkt : HelloPkt)
    (pre : List Neighbor) (m : Neighbor) (post : List Neighbor)
    (hsplit : (s.ifaces.getD ii dfltIface).nbrs = pre ++ m :: post)
    (hm : m.nbr_id = pkt.rid)
    (hpre : ∀ n ∈ pre, n.nbr_id ≠ pkt.rid) :
    handle_mospf_hello s ii pkt =
      {s with ifaces := s.ifaces.set ii ({s.ifaces.getD ii dfltIface with nbrs := pre ++ ({m with alive := MOSPF_NEIGHBOR_TIMEOUT}) :: post})} := by
  simp only [handle_mospf_hello]
  rw [hsplit, hello_refresh_split pkt.rid pre m post hpre hm]

/-- Witness for claim C10: neighbor 6 on s10m's interface 0 is refreshed by
a Hello whose source ip (77) and mask (13) differ from the stored values. -/
theorem handle_mospf_hello_known_witness :
    (s10m.ifaces.getD 0 dfltIface).nbrs = [⟨4, 44, 12, 2⟩] ++ (⟨6, 66, 12, 9⟩ : Neighbor) :: [] ∧
    (⟨6, 66, 12, 9⟩ : Neighbor).nbr_id = pkt10.rid ∧
    handle_mospf_hello s10m 0 pkt10 =
      {s10m with ifaces := s10m.ifaces.set 0 ({s10m.ifaces.getD 0 dfltIface with nbrs := [⟨4, 44, 12, 2⟩] ++ ({(⟨6, 66, 12, 9⟩ : Neighbor) with alive := MOSPF_NEIGHBOR_TIMEOUT}) :: []})} :=
  ⟨by decide, by decide,
    handle_mospf_hello_known s10m 0 pkt10 [⟨4, 44, 12, 2⟩] ⟨6, 66, 12, 9⟩ []
      (by decide) (by decide) (by decide)⟩
